import Mathlib

/-
Verification of `optitrack_vrpn` (src/src/optitrack_vrpn/tracker_handler.cpp).

The file shallowly embeds the tracker handler: the tf2 quaternion
operations it calls (`setRPY`, `inverse`, `operator*`), the constructor
(`TrackerHandler::TrackerHandler`), the tracking-update callback
(`TrackerHandler::position_callback`), the transform emission
(`TrackerHandler::send_transform`) and the name sanitizer
(`TrackerHandler::sanitize_name`).  Floating-point doubles are modelled as
real numbers; the position remapping and quaternion algebra are exact
permutations, negations and ring operations, so the real-number model has
the same structure as the C++ code.  Publishing and transform broadcasting
are modelled as a list of emitted events.
-/

namespace OptitrackVrpn

/-- Quaternion with components stored in tf2 order (x, y, z, w), over an
arbitrary coefficient type standing for the C++ floating-point scalar. -/
structure Quat (R : Type) where
  x : R
  y : R
  z : R
  w : R
deriving DecidableEq

/-- Hamilton product, as computed by tf2's Quaternion `operator*`. -/
def qmul {R : Type} [Ring R] (q1 q2 : Quat R) : Quat R :=
  ⟨q1.w * q2.x + q1.x * q2.w + q1.y * q2.z - q1.z * q2.y,
   q1.w * q2.y + q1.y * q2.w + q1.z * q2.x - q1.x * q2.z,
   q1.w * q2.z + q1.z * q2.w + q1.x * q2.y - q1.y * q2.x,
   q1.w * q2.w - q1.x * q2.x - q1.y * q2.y - q1.z * q2.z⟩

/-- Inverse of a quaternion as computed by tf2's `Quaternion::inverse`:
negate the vector part, keep the scalar part. -/
def qinv {R : Type} [Ring R] (q : Quat R) : Quat R :=
  ⟨-q.x, -q.y, -q.z, q.w⟩

/-- Quaternion from roll-pitch-yaw angles, as computed by tf2's
`Quaternion::setRPY` (half-angle formulas). -/
noncomputable def setRPY (roll pitch yaw : ℝ) : Quat ℝ :=
  ⟨Real.sin (roll / 2) * Real.cos (pitch / 2) * Real.cos (yaw / 2) -
     Real.cos (roll / 2) * Real.sin (pitch / 2) * Real.sin (yaw / 2),
   Real.cos (roll / 2) * Real.sin (pitch / 2) * Real.cos (yaw / 2) +
     Real.sin (roll / 2) * Real.cos (pitch / 2) * Real.sin (yaw / 2),
   Real.cos (roll / 2) * Real.cos (pitch / 2) * Real.sin (yaw / 2) -
     Real.sin (roll / 2) * Real.sin (pitch / 2) * Real.cos (yaw / 2),
   Real.cos (roll / 2) * Real.cos (pitch / 2) * Real.cos (yaw / 2) +
     Real.sin (roll / 2) * Real.sin (pitch / 2) * Real.sin (yaw / 2)⟩

/-- Three-component vector (geometry_msgs Point / Vector3, both are plain
(x, y, z) float64 triples; the code copies them componentwise). -/
structure Vec3 (R : Type) where
  x : R
  y : R
  z : R
deriving DecidableEq

/-- Message timestamp (ros::Time); only copied around by this code, so the
(sec, nsec) pair is kept abstract as two naturals. -/
structure RosTime where
  sec : ℕ
  nsec : ℕ
deriving DecidableEq

/-- VRPN message time (struct timeval); only handed to the external
time-resolution collaborator. -/
structure VrpnTime where
  tv_sec : ℤ
  tv_usec : ℤ
deriving DecidableEq

/-- Tracker update (vrpn_TRACKERCB): message time, position array pos[3]
and orientation array quat[4].  The repository's VRPNIndex enum (declared
in the header, which is not under src/) names the array slots; per the
spec's axis-mapping tables (ENU = (Z, X, Y), NED = (X, Z, −Y)) it maps
X, Y, Z (and W for quat) to consecutive components, which the named fields
below record directly. -/
structure TrackerCB where
  msg_time : VrpnTime
  pos : Vec3 ℝ
  quat : Quat ℝ

/-- Message header (std_msgs Header): timestamp and parent frame id. -/
structure Header where
  stamp : RosTime
  frame_id : String
deriving DecidableEq

/-- Stamped pose message (geometry_msgs PoseStamped). -/
structure PoseStamped where
  header : Header
  position : Vec3 ℝ
  orientation : Quat ℝ

/-- Stamped transform message (geometry_msgs TransformStamped). -/
structure TransformStamped where
  header : Header
  child_frame_id : String
  translation : Vec3 ℝ
  rotation : Quat ℝ

/-- Which publisher a pose goes out on: `enu_pub_` or `ned_pub_`. -/
inductive Pub
  | enu
  | ned
deriving DecidableEq

/-- Observable effect of one callback run: a pose published on one of the
two publishers, or a transform handed to the tf broadcaster. -/
inductive Event
  | publishPose (p : Pub) (m : PoseStamped)
  | sendTf (t : TransformStamped)

/-- Handler options (TrackerHandlerOptions, declared in the header, not
under src/): the fields the .cpp reads are `host`, `frame` and
`ned_frame`. -/
structure TrackerHandlerOptions where
  host : String
  frame : String
  ned_frame : String

/-- Member state of a TrackerHandler relevant to the embedded code:
the fields set by the constructor and read by the callback. -/
structure TrackerHandlerState where
  name : String
  options : TrackerHandlerOptions
  tf_child_frame : String
  tf_child_frame_ned : String
  nue_to_enu : Quat ℝ
  nue_to_ned : Quat ℝ
  enu_topic : String
  ned_topic : String

/-- Locale-independent `isalnum` on the ASCII range, as used by
`sanitize_name` on topic-name characters. -/
def isalnum (c : Char) : Bool :=
  (Char.ofNat 48 ≤ c && c ≤ Char.ofNat 57) ||
  (Char.ofNat 65 ≤ c && c ≤ Char.ofNat 90) ||
  (Char.ofNat 97 ≤ c && c ≤ Char.ofNat 122)

/-- Body of the `sanitize_name` loop for one character: the characters (if
any) appended to the stream for input character `c` when the
`first_character` flag is `first`. -/
def emitChar (first : Bool) (c : Char) : List Char :=
  if isalnum c || c = '/' then [c]
  else if c = '_' && !first then [c]
  else if c = ' ' then ['_']
  else []

/-- The `sanitize_name` loop: process each character, with the
`first_character` flag true for the head only (the C++ loop sets it to
false at the end of every iteration). -/
def sanitizeAux : Bool → List Char → List Char
  | _, [] => []
  | first, c :: rest => emitChar first c ++ sanitizeAux false rest

/-- TrackerHandler::sanitize_name. -/
def sanitize_name (s : String) : String :=
  String.mk (sanitizeAux true s.data)

/-- TrackerHandler::TrackerHandler: member state after construction.
`tf_child_frame_` is the tracker name, `tf_child_frame_ned_` appends
"_ned", the two frame-change quaternions are set by `setRPY`, and the two
topics advertised are the sanitized name with "_enu" / "_ned" appended. -/
noncomputable def mkTrackerHandler (name : String)
    (options : TrackerHandlerOptions) : TrackerHandlerState :=
  { name := name
    options := options
    tf_child_frame := name
    tf_child_frame_ned := name ++ "_ned"
    nue_to_enu := setRPY 0 (-(Real.pi / 2)) (-(Real.pi / 2))
    nue_to_ned := setRPY (-(Real.pi / 2)) 0 0
    enu_topic := sanitize_name name ++ "_enu"
    ned_topic := sanitize_name name ++ "_ned" }

/-- TrackerHandler::send_transform: build the TransformStamped broadcast
for a pose, copying stamp, frame id, translation and rotation from the
pose and setting the child frame id. -/
def send_transform (pose : PoseStamped) (child_frame : String) :
    TransformStamped :=
  { header := { stamp := pose.header.stamp, frame_id := pose.header.frame_id }
    child_frame_id := child_frame
    translation := ⟨pose.position.x, pose.position.y, pose.position.z⟩
    rotation := ⟨pose.orientation.x, pose.orientation.y,
                 pose.orientation.z, pose.orientation.w⟩ }

/-- TrackerHandler::position_callback.  `stamp` is the result of the single
`time_manager_.resolve_timestamp(info.msg_time)` call at the top of the
body; timestamp resolution itself is owned by the external TimeManager
collaborator.  Returns the emitted events in program order: ENU pose
publish, ENU transform, NED pose publish, NED transform. -/
def position_callback (st : TrackerHandlerState) (stamp : RosTime)
    (info : TrackerCB) : List Event :=
  let enu_msg : PoseStamped :=
    { header := { stamp := stamp, frame_id := st.options.frame }
      position := ⟨info.pos.z, info.pos.x, info.pos.y⟩
      orientation := qmul (qinv st.nue_to_enu) info.quat }
  let ned_msg : PoseStamped :=
    { header := { stamp := stamp, frame_id := st.options.ned_frame }
      position := ⟨info.pos.x, info.pos.z, -info.pos.y⟩
      orientation := qmul (qinv st.nue_to_ned) info.quat }
  [Event.publishPose Pub.enu enu_msg,
   Event.sendTf (send_transform enu_msg st.tf_child_frame),
   Event.publishPose Pub.ned ned_msg,
   Event.sendTf (send_transform ned_msg st.tf_child_frame_ned)]

/-- Project a pose-publication event to its publisher and message. -/
def poseOf : Event → Option (Pub × PoseStamped)
  | Event.publishPose p m => some (p, m)
  | Event.sendTf _ => none

/-- Project a transform-broadcast event to its message. -/
def tfOf : Event → Option TransformStamped
  | Event.publishPose _ _ => none
  | Event.sendTf t => some t

/-- Poses published during a list of events, in order, with publishers. -/
def publishedPoses (evs : List Event) : List (Pub × PoseStamped) :=
  evs.filterMap poseOf

/-- Transforms broadcast during a list of events, in order. -/
def broadcastTfs (evs : List Event) : List TransformStamped :=
  evs.filterMap tfOf

/-- First pose published on publisher `p`, if any. -/
def firstPose (p : Pub) (evs : List Event) : Option PoseStamped :=
  ((publishedPoses evs).filter (fun pm => pm.1 = p)).head?.map Prod.snd

/-- Stamp-free numeric content of the published poses: the (position,
orientation) pairs, in publication order. -/
def numericContents (evs : List Event) : List (Vec3 ℝ × Quat ℝ) :=
  (publishedPoses evs).map (fun pm => (pm.2.position, pm.2.orientation))

/-- Run of callbacks: the handler reacts to a list of tracker updates,
threading the external time manager (abstract state `σ`, one
`resolve_timestamp` step per update) through the run.  The handler's own
member state is never written by the callback, so it is passed unchanged. -/
def runCallbacks {σ : Type} (st : TrackerHandlerState)
    (step : σ → VrpnTime → RosTime × σ) : σ → List TrackerCB → List (List Event)
  | _, [] => []
  | tm, info :: rest =>
    position_callback st (step tm info.msg_time).1 info ::
      runCallbacks st step (step tm info.msg_time).2 rest

/-- Specification-level sanitizer, written from the spec's words: keep
alphanumerics and '/'; keep '_' only if not the first character (input
position 0); convert spaces to '_'; drop all other characters.  The
character at position 0 is processed with the first-character rule, every
later character uniformly without it. -/
def sanitizeSpec (s : String) : String :=
  String.mk (match s.data with
    | [] => []
    | c :: rest => emitChar true c ++ (rest.map (emitChar false)).flatten)

/-- Topic-safe characters: alphanumeric, '/' or '_'. -/
def topicSafe (c : Char) : Bool :=
  isalnum c || c = '/' || c = '_'

/-- State of the flag no longer matters after the first character: the
loop with flag false is a flat map of the per-character emission. -/
theorem sanitizeAux_false_eq_join_map (cs : List Char) :
    sanitizeAux false cs = (cs.map (emitChar false)).flatten := by
  induction cs with
  | nil => rfl
  | cons c rest ih => simp [sanitizeAux, ih]

/-- Per-character emission produces only topic-safe characters. -/
theorem emitChar_safe (first : Bool) (c : Char) :
    (emitChar first c).all topicSafe = true := by
  unfold emitChar
  repeat' split
  all_goals simp_all [topicSafe]

/-- Per-character emission produces at most one character. -/
theorem emitChar_length (first : Bool) (c : Char) :
    (emitChar first c).length ≤ 1 := by
  unfold emitChar
  repeat' split
  all_goals simp

/-- Loop invariant for sanitization: the output is topic-safe and no
longer than the remaining input, for either flag value. -/
theorem sanitizeAux_safe (cs : List Char) : ∀ first : Bool,
    (sanitizeAux first cs).all topicSafe = true ∧
      (sanitizeAux first cs).length ≤ cs.length := by
  induction cs with
  | nil => intro first; exact ⟨rfl, Nat.le_refl 0⟩
  | cons c rest ih =>
    intro first
    constructor
    · simp [sanitizeAux, List.all_append, emitChar_safe, (ih false).1]
    · have h1 := emitChar_length first c
      have h2 := (ih false).2
      simp only [sanitizeAux, List.length_append, List.length_cons]
      omega

/-- C4: sanitize_name keeps each alphanumeric character and each '/'
unchanged, keeps '_' only if it is not the first character, converts each
space to '_', and drops every other character, preserving order and never
failing (it is a total function); in particular "My Track/1" maps to
"My_Track/1", "_abc" to "abc", and "a_b" to "a_b". -/
theorem sanitize_name_matches_spec :
    (∀ s : String, sanitize_name s = sanitizeSpec s) ∧
    sanitize_name "My Track/1" = "My_Track/1" ∧
    sanitize_name "_abc" = "abc" ∧
    sanitize_name "a_b" = "a_b" := by
  refine ⟨?_, by decide, by decide, by decide⟩
  intro s
  unfold sanitize_name sanitizeSpec
  cases s.data with
  | nil => rfl
  | cons c rest => simp [sanitizeAux, sanitizeAux_false_eq_join_map]

/-- C8: the first-character rule of sanitize_name refers to input position
0, not to the output: only the head of the input is processed with the
flag set, a '_' at any later input position is kept even when all earlier
characters were dropped or converted, so the output can begin with '_';
in particular " a" maps to "_a" and "._a" maps to "_a". -/
theorem sanitize_first_character_is_input_position :
    (∀ (c : Char) (rest : List Char),
        sanitizeAux true (c :: rest) = emitChar true c ++ sanitizeAux false rest) ∧
    (∀ rest : List Char,
        sanitizeAux false ('_' :: rest) = '_' :: sanitizeAux false rest) ∧
    sanitize_name " a" = "_a" ∧
    sanitize_name "._a" = "_a" := by
  refine ⟨fun c rest => rfl, fun rest => rfl, by decide, by decide⟩

/-- C10: every character of the string returned by sanitize_name is
alphanumeric, '/' or '_', and the output is never longer than the input. -/
theorem sanitize_name_topic_safe (s : String) :
    (sanitize_name s).data.all topicSafe = true ∧
    (sanitize_name s).length ≤ s.length := by
  have h := sanitizeAux_safe s.data true
  exact ⟨h.1, h.2⟩

/-- Time-manager state reached after a list of updates has been handled:
one resolve step per update, in order. -/
def threadTM {σ : Type} (step : σ → VrpnTime → RosTime × σ) (tm : σ)
    (infos : List TrackerCB) : σ :=
  infos.foldl (fun t i => (step t i.msg_time).2) tm

/-- Output of the run at the position of a distinguished update: the
callback applied to that update with the stamp resolved there. -/
theorem runCallbacks_getElem {σ : Type} (st : TrackerHandlerState)
    (step : σ → VrpnTime → RosTime × σ) :
    ∀ (pre : List TrackerCB) (tm : σ) (info : TrackerCB) (post : List TrackerCB),
      (runCallbacks st step tm (pre ++ info :: post))[pre.length]?
        = some (position_callback st (step (threadTM step tm pre) info.msg_time).1 info) := by
  intro pre
  induction pre with
  | nil => intro tm info post; simp [runCallbacks, threadTM]
  | cons p ps ih =>
    intro tm info post
    show (position_callback st (step tm p.msg_time).1 p ::
        runCallbacks st step (step tm p.msg_time).2 (ps ++ info :: post))[ps.length + 1]? = _
    rw [List.getElem?_cons_succ]
    exact ih (step tm p.msg_time).2 info post

/-- Numeric contents of a callback run depend only on the seven numeric
inputs, not on the resolved stamp. -/
theorem numericContents_callback (st : TrackerHandlerState)
    (s1 s2 : RosTime) (i1 i2 : TrackerCB)
    (hp : i1.pos = i2.pos) (hq : i1.quat = i2.quat) :
    numericContents (position_callback st s1 i1)
      = numericContents (position_callback st s2 i2) := by
  cases i1
  cases i2
  cases hp
  cases hq
  rfl

/-- C1: for every tracker update, the ENU pose orientation published is
inverse(NUE_to_ENU) * body quaternion and the NED pose orientation is
inverse(NUE_to_NED) * body quaternion, with NUE_to_ENU the setRPY
quaternion of (0, -pi/2, -pi/2) and NUE_to_NED that of (-pi/2, 0, 0) as
fixed by the constructor. -/
theorem orientation_remapping (name : String) (opts : TrackerHandlerOptions)
    (stamp : RosTime) (info : TrackerCB) :
    (firstPose Pub.enu
        (position_callback (mkTrackerHandler name opts) stamp info)).map
        (fun m => m.orientation)
      = some (qmul (qinv (setRPY 0 (-(Real.pi / 2)) (-(Real.pi / 2)))) info.quat) ∧
    (firstPose Pub.ned
        (position_callback (mkTrackerHandler name opts) stamp info)).map
        (fun m => m.orientation)
      = some (qmul (qinv (setRPY (-(Real.pi / 2)) 0 0)) info.quat) := by
  exact ⟨rfl, rfl⟩

/-- C2: for every tracker update with source-frame position (x, y, z) the
published ENU pose position is (z, x, y); in particular (1, 2, 3) yields
(3, 1, 2). -/
theorem enu_position_mapping :
    (∀ (st : TrackerHandlerState) (stamp : RosTime) (info : TrackerCB),
        (firstPose Pub.enu (position_callback st stamp info)).map
            (fun m => m.position)
          = some ⟨info.pos.z, info.pos.x, info.pos.y⟩) ∧
    (∀ (st : TrackerHandlerState) (stamp : RosTime) (t : VrpnTime) (q : Quat ℝ),
        (firstPose Pub.enu (position_callback st stamp ⟨t, ⟨1, 2, 3⟩, q⟩)).map
            (fun m => m.position)
          = some ⟨3, 1, 2⟩) := by
  exact ⟨fun st stamp info => rfl, fun st stamp t q => rfl⟩

/-- C3: for every tracker update with source-frame position (x, y, z) the
published NED pose position is (x, z, -y); in particular (1, 2, 3) yields
(1, 3, -2). -/
theorem ned_position_mapping :
    (∀ (st : TrackerHandlerState) (stamp : RosTime) (info : TrackerCB),
        (firstPose Pub.ned (position_callback st stamp info)).map
            (fun m => m.position)
          = some ⟨info.pos.x, info.pos.z, -info.pos.y⟩) ∧
    (∀ (st : TrackerHandlerState) (stamp : RosTime) (t : VrpnTime) (q : Quat ℝ),
        (firstPose Pub.ned (position_callback st stamp ⟨t, ⟨1, 2, 3⟩, q⟩)).map
            (fun m => m.position)
          = some ⟨1, 3, -2⟩) := by
  exact ⟨fun st stamp info => rfl, fun st stamp t q => rfl⟩

/-- C5: each transform broadcast alongside a published pose copies the
pose unchanged: translation equals the pose position, rotation equals the
pose orientation, and the transform header carries the pose header's
stamp and frame id; in every callback run the two broadcast transforms
are exactly the ones built from the two published poses. -/
theorem transform_copies_pose :
    (∀ (pose : PoseStamped) (child : String),
        (send_transform pose child).translation = pose.position ∧
        (send_transform pose child).rotation = pose.orientation ∧
        (send_transform pose child).header.stamp = pose.header.stamp ∧
        (send_transform pose child).header.frame_id = pose.header.frame_id) ∧
    (∀ (st : TrackerHandlerState) (stamp : RosTime) (info : TrackerCB),
        ∃ m1 m2 : PoseStamped,
          publishedPoses (position_callback st stamp info)
            = [(Pub.enu, m1), (Pub.ned, m2)] ∧
          broadcastTfs (position_callback st stamp info)
            = [send_transform m1 st.tf_child_frame,
               send_transform m2 st.tf_child_frame_ned]) := by
  constructor
  · exact fun pose child => ⟨rfl, rfl, rfl, rfl⟩
  · exact fun st stamp info => ⟨_, _, rfl, rfl⟩

/-- C7: every callback invocation emits exactly four events: two pose
publications (first ENU, then NED) and two transform broadcasts, with
each pose publication immediately followed by its transform broadcast. -/
theorem callback_event_shape (st : TrackerHandlerState) (stamp : RosTime)
    (info : TrackerCB) :
    (position_callback st stamp info).length = 4 ∧
    (publishedPoses (position_callback st stamp info)).map Prod.fst
      = [Pub.enu, Pub.ned] ∧
    (broadcastTfs (position_callback st stamp info)).length = 2 ∧
    (position_callback st stamp info).map (fun e => (tfOf e).isSome)
      = [false, true, false, true] := by
  exact ⟨rfl, rfl, rfl, rfl⟩

/-- C9: within one callback invocation the timestamp is resolved once (the
single stamp argument fixed at the top of the body) and all four outgoing
messages, both poses and both transforms, carry that identical stamp. -/
theorem callback_single_stamp (st : TrackerHandlerState) (stamp : RosTime)
    (info : TrackerCB) :
    (publishedPoses (position_callback st stamp info)).map
        (fun pm => pm.2.header.stamp) = [stamp, stamp] ∧
    (broadcastTfs (position_callback st stamp info)).map
        (fun t => t.header.stamp) = [stamp, stamp] := by
  exact ⟨rfl, rfl⟩

/-- C6: the transform is pure and stateless: in any two runs, with any
time-manager states and any prior and following invocations, two
invocations whose seven numeric inputs agree produce pose outputs with
equal numeric contents (ENU equal to ENU, NED equal to NED). -/
theorem callback_pure_stateless {σ1 σ2 : Type} (st : TrackerHandlerState)
    (step1 : σ1 → VrpnTime → RosTime × σ1) (step2 : σ2 → VrpnTime → RosTime × σ2)
    (tm1 : σ1) (tm2 : σ2) (pre1 post1 pre2 post2 : List TrackerCB)
    (i1 i2 : TrackerCB) (hp : i1.pos = i2.pos) (hq : i1.quat = i2.quat) :
    ((runCallbacks st step1 tm1 (pre1 ++ i1 :: post1))[pre1.length]?).map
        numericContents
      = ((runCallbacks st step2 tm2 (pre2 ++ i2 :: post2))[pre2.length]?).map
          numericContents := by
  rw [runCallbacks_getElem st step1 pre1 tm1 i1 post1,
      runCallbacks_getElem st step2 pre2 tm2 i2 post2]
  simp only [Option.map_some']
  exact congrArg some (numericContents_callback st _ _ i1 i2 hp hq)

/-- Sample time-manager step used to instantiate run theorems. -/
def constStep : Unit → VrpnTime → RosTime × Unit :=
  fun _ _ => (⟨0, 0⟩, ())

/-- Sample tracker update used to instantiate run theorems. -/
def sampleInfo : TrackerCB :=
  ⟨⟨0, 0⟩, ⟨1, 2, 3⟩, ⟨0, 0, 0, 1⟩⟩

/-- Sample handler state used to instantiate run theorems. -/
noncomputable def sampleState : TrackerHandlerState :=
  mkTrackerHandler "Tracker 1" ⟨"vrpn_host", "optitrack", "optitrack_ned"⟩

/-- Witness for C6: the purity theorem applied to two singleton runs of
the same concrete update, discharging both numeric-equality hypotheses. -/
theorem callback_pure_stateless_witness :
    sampleInfo.pos = sampleInfo.pos ∧ sampleInfo.quat = sampleInfo.quat ∧
    ((runCallbacks sampleState constStep ()
        (([] : List TrackerCB) ++ sampleInfo :: ([] : List TrackerCB)))[
          ([] : List TrackerCB).length]?).map numericContents
      = ((runCallbacks sampleState constStep ()
          (([] : List TrackerCB) ++ sampleInfo :: ([] : List TrackerCB)))[
            ([] : List TrackerCB).length]?).map numericContents :=
  ⟨rfl, rfl,
    callback_pure_stateless sampleState constStep constStep () () [] [] [] []
      sampleInfo sampleInfo rfl rfl⟩

end OptitrackVrpn
